import Mathlib

set_option genSizeOfSpec false
set_option genInjectivity false

/-!
Verification of `src/psutil/arch/windows/process_info.c` (psutil, Windows
process-information helpers).

The C file is shallowly embedded: every syscall outcome (OpenProcess,
GetExitCodeProcess, EnumProcesses, NtQuerySystemInformation, ReadProcessMemory,
VirtualQueryEx, GetProcAddress, calloc/malloc) is an oracle field of an
environment structure, and each C function becomes a total Lean function over
that environment that follows the C control flow statement by statement.
Machine integers are modelled as `Nat` (DWORD, SIZE_T, USHORT are unsigned);
the C functions' int results (`1 / 0 / -1 / -2`) are modelled as `Int`;
Python exception state is modelled by the `PyErr` type.
-/

/-- Python-level exception kinds set by the C code
    (`AccessDenied`, `NoSuchProcess`, `PyErr_SetFromWindowsErr`,
    `PyErr_NoMemory`, `PyExc_AssertionError`, `PyExc_RuntimeError`). -/
inductive PyErr where
  | accessDenied
  | noSuchProcess
  | windowsErr (code : Nat)
  | noMemory
  | assertionError
  | runtimeError

/-- Windows `ERROR_INVALID_PARAMETER`: the error code `OpenProcess` sets when
    the pid names no syscall-addressable process. -/
def ERROR_INVALID_PARAMETER : Nat := 87

/-- Windows `ERROR_ACCESS_DENIED`. -/
def ERROR_ACCESS_DENIED : Nat := 5

/-- Windows `STILL_ACTIVE` sentinel exit code (259). -/
def STILL_ACTIVE : Nat := 259

/-- `const int STATUS_INFO_LENGTH_MISMATCH = 0xC0000004` (process_info.c:153). -/
def STATUS_INFO_LENGTH_MISMATCH : Nat := 0xC0000004

/-- `const int STATUS_BUFFER_TOO_SMALL = 0xC0000023L` (process_info.c:154). -/
def STATUS_BUFFER_TOO_SMALL : Nat := 0xC0000023

/-- Environment for the pid-liveness functions.  One call inspects one pid, so
    the oracles are the outcomes of the syscalls that call performs:
    `openProcess` is the handle returned by `OpenProcess` (`none` = NULL),
    `lastError` the `GetLastError()` value consulted after a NULL handle,
    `getExitCode` the outcome of `GetExitCodeProcess` (error code or exit
    code), `pids` the outcome of `psutil_get_pids` as used by
    `psutil_pid_in_pids`, and `testing` the `PSUTIL_TESTING` flag. -/
structure PhrEnv where
  testing : Bool
  lastError : Nat
  openProcess : Option Unit
  getExitCode : Except Nat Nat
  pids : Except PyErr (List Nat)

/-- `psutil_pid_in_pids` (process_info.c:203-220): 1 if pid is in the
    enumerated pid list, 0 if not, -1 if `psutil_get_pids` failed. -/
def psutil_pid_in_pids (e : PhrEnv) (pid : Nat) : Int :=
  match e.pids with
  | .error _ => -1
  | .ok l => if pid ∈ l then 1 else 0

/-- `psutil_assert_pid_exists` (process_info.c:357-366): under
    `PSUTIL_TESTING`, fail (return 0, with AssertionError set) when
    `psutil_pid_in_pids(pid) == 0`; otherwise succeed (return 1). -/
def psutil_assert_pid_exists (e : PhrEnv) (pid : Nat) : Bool :=
  if e.testing ∧ psutil_pid_in_pids e pid = 0 then false else true

/-- `psutil_assert_pid_not_exists` (process_info.c:369-378): under
    `PSUTIL_TESTING`, fail when `psutil_pid_in_pids(pid) == 1`. -/
def psutil_assert_pid_not_exists (e : PhrEnv) (pid : Nat) : Bool :=
  if e.testing ∧ psutil_pid_in_pids e pid = 1 then false else true

/-- `psutil_pid_is_running` (process_info.c:388-460).  Result is the returned
    int (1 running / 0 not running / -1 error) paired with the Python
    exception the call sets, if any.  `pid < 0` in the C source is dead code
    (`DWORD` is unsigned), so it does not appear here. -/
def psutil_pid_is_running (e : PhrEnv) (pid : Nat) : Int × Option PyErr :=
  if pid = 0 then (1, none)
  else match e.openProcess with
  | none =>
      if e.lastError = ERROR_INVALID_PARAMETER then
        if !(psutil_assert_pid_not_exists e pid) then (-1, some .assertionError)
        else (0, none)
      else if e.lastError = ERROR_ACCESS_DENIED then
        if !(psutil_assert_pid_exists e pid) then (-1, some .assertionError)
        else (1, none)
      else (-1, some (.windowsErr e.lastError))
  | some () =>
      match e.getExitCode with
      | .ok exitCode =>
          if exitCode = STILL_ACTIVE then
            if !(psutil_assert_pid_exists e pid) then (-1, some .assertionError)
            else (1, none)
          else
            (psutil_pid_in_pids e pid,
             match e.pids with
             | .error err => some err
             | .ok _ => none)
      | .error err =>
          if err = ERROR_ACCESS_DENIED then
            if !(psutil_assert_pid_exists e pid) then (-1, some .assertionError)
            else (1, none)
          else (-1, some (.windowsErr err))

/-- Result of `psutil_is_phandle_running`: the returned int, the number of
    times the call executed `CloseHandle` on the given handle, and the Python
    exception set, if any. -/
structure PhrRes where
  ret : Int
  closes : Nat
  exc : Option PyErr

/-- `psutil_is_phandle_running` (process_info.c:231-275).  Takes the handle
    value (`none` = NULL) and follows the C control flow, counting the
    `CloseHandle(hProcess)` calls executed on each path. -/
def psutil_is_phandle_running (e : PhrEnv) (hProcess : Option Unit) (pid : Nat) :
    PhrRes :=
  match hProcess with
  | none =>
      if e.lastError = ERROR_INVALID_PARAMETER then
        if !(psutil_assert_pid_not_exists e pid) then ⟨-2, 0, some .assertionError⟩
        else ⟨0, 0, none⟩
      else ⟨-1, 0, none⟩
  | some () =>
      match e.getExitCode with
      | .ok exitCode =>
          if exitCode = STILL_ACTIVE then
            if !(psutil_assert_pid_exists e pid) then ⟨-2, 0, some .assertionError⟩
            else ⟨1, 0, none⟩
          else
            if psutil_pid_in_pids e pid = 1 then ⟨1, 0, none⟩
            else ⟨0, 1, none⟩
      | .error _ =>
          if !(psutil_assert_pid_not_exists e pid) then ⟨-2, 1, some .assertionError⟩
          else ⟨-1, 1, none⟩

/-- `psutil_check_phandle` (process_info.c:283-294): map the int result of
    `psutil_is_phandle_running` to a handle or a Python exception. -/
def psutil_check_phandle (e : PhrEnv) (hProcess : Option Unit) (pid : Nat) :
    Except PyErr Unit :=
  let r := (psutil_is_phandle_running e hProcess pid).ret
  if r = 1 then .ok ()
  else if r = 0 then .error .noSuchProcess
  else if r = -1 then .error (.windowsErr e.lastError)
  else .error .assertionError

/-- `psutil_handle_from_pid` (process_info.c:304-315): pid 0 is rejected with
    `AccessDenied` before `OpenProcess` is even attempted; otherwise the
    freshly opened handle is vetted by `psutil_check_phandle`. -/
def psutil_handle_from_pid (e : PhrEnv) (pid : Nat) (dwDesiredAccess : Nat) :
    Except PyErr Unit :=
  if pid = 0 then .error .accessDenied
  else psutil_check_phandle e e.openProcess pid

/-- `UNICODE_STRING` as read out of the target's parameters block:
    a byte length (`USHORT Length`) and a remote buffer address. -/
structure UNICODE_STRING where
  length : Nat
  buffer : Nat

/-- The fields of `RTL_USER_PROCESS_PARAMETERS_` (and of its 32/64-bit
    variants) that `psutil_get_process_data` consumes (process_info.c:33-42):
    command line, current directory, and the environment-block address. -/
structure RTL_USER_PROCESS_PARAMETERS where
  commandLine : UNICODE_STRING
  currentDirectoryPath : UNICODE_STRING
  env : Nat

/-- `enum psutil_process_data_kind` (process_info.c:479-483). -/
inductive psutil_process_data_kind where
  | KIND_CMDLINE
  | KIND_CWD
  | KIND_ENVIRON

/-- Environment for one `psutil_get_process_data` call.  `inspector64` is the
    `_WIN64` build flag; the remaining fields give each syscall's outcome in
    the order the call performs them: `ntqipOK` the `psutil_GetProcAddress`
    lookup of NtQueryInformationProcess, `handle` the `psutil_handle_from_pid`
    outcome, `wow64InfoOK`/`ppeb32` the ProcessWow64Information query (64-bit
    build), `isWowOK`/`weAreWow64`/`theyAreWow64` the two `IsWow64Process`
    calls (32-bit build), `ntWow64QueryOK`/`ntWow64ReadOK` the
    `psutil_GetProcAddressFromLib` lookups of the width-crossing primitives,
    `queryBasicOK` the basic-information query, `readPebOK`/`readParamsOK`
    the two fixed-size structure reads, `procParameters` the parameters
    block those reads produce, `regionSize` the extent computed by
    `psutil_get_process_region_size` via VirtualQueryEx, `callocOK` whether a
    local allocation of the given byte count succeeds, and `readMem` the
    remote read of `size` bytes at `src` performed by ReadProcessMemory or
    NtWow64ReadVirtualMemory64. -/
structure DataEnv where
  inspector64 : Bool
  ntqipOK : Bool
  handle : Except PyErr Unit
  wow64InfoOK : Bool
  ppeb32 : Option Nat
  isWowOK : Bool
  weAreWow64 : Bool
  theyAreWow64 : Bool
  ntWow64QueryOK : Bool
  ntWow64ReadOK : Bool
  queryBasicOK : Bool
  readPebOK : Bool
  readParamsOK : Bool
  procParameters : RTL_USER_PROCESS_PARAMETERS
  regionSize : Except Unit Nat
  callocOK : Nat → Bool
  readMem : Nat → Nat → Except Unit (List Nat)

/-- The Narrower bitness case (process_info.c:602): a 32-bit inspector under
    WoW64 inspecting a target that is not under WoW64 (hence 64-bit). -/
def DataEnv.isNarrower (e : DataEnv) : Bool :=
  !e.inspector64 && (e.weAreWow64 && !e.theyAreWow64)

/-- All syscalls and allocations of one `psutil_get_process_data` call
    succeed: the proposition under which the extraction, when not rejected on
    bitness grounds, runs to completion. -/
def DataEnv.allCallsOK (e : DataEnv) : Prop :=
  e.ntqipOK = true ∧ e.handle = .ok () ∧ e.wow64InfoOK = true ∧
  e.isWowOK = true ∧ e.ntWow64QueryOK = true ∧ e.ntWow64ReadOK = true ∧
  e.queryBasicOK = true ∧ e.readPebOK = true ∧ e.readParamsOK = true ∧
  (∃ s, e.regionSize = .ok s) ∧ (∀ n, e.callocOK n = true) ∧
  (∀ a n, ∃ bs, e.readMem a n = .ok bs)

/-- Bitness determination and parameters-block read
    (process_info.c:547-723): the branch on `_WIN64` / `ppeb32` /
    `IsWow64Process` selects the layout and performs the basic-info query and
    the two remote structure reads, each `goto error` on failure.  The
    Narrower branch first resolves the two width-crossing primitives,
    reporting `AccessDenied` when either is unavailable
    (process_info.c:608-627). -/
def readParamsStep (e : DataEnv) : Except PyErr Unit :=
  if e.inspector64 then
    if !e.wow64InfoOK then .error (.windowsErr 0)
    else match e.ppeb32 with
    | some _ =>
        if !e.readPebOK then .error (.windowsErr 0)
        else if !e.readParamsOK then .error (.windowsErr 0)
        else .ok ()
    | none =>
        if !e.queryBasicOK then .error (.windowsErr 0)
        else if !e.readPebOK then .error (.windowsErr 0)
        else if !e.readParamsOK then .error (.windowsErr 0)
        else .ok ()
  else
    if !e.isWowOK then .error (.windowsErr 0)
    else if e.weAreWow64 && !e.theyAreWow64 then
      if !e.ntWow64QueryOK then .error .accessDenied
      else if !e.ntWow64ReadOK then .error .accessDenied
      else if !e.queryBasicOK then .error (.windowsErr 0)
      else if !e.readPebOK then .error (.windowsErr 0)
      else if !e.readParamsOK then .error (.windowsErr 0)
      else .ok ()
    else
      if !e.queryBasicOK then .error (.windowsErr 0)
      else if !e.readPebOK then .error (.windowsErr 0)
      else if !e.readParamsOK then .error (.windowsErr 0)
      else .ok ()

/-- The `switch (kind)` field selection (process_info.c:580-592, 659-671,
    710-722): the requested field's remote address, and its byte length when
    the layout stores one (for `KIND_ENVIRON` no length is stored). -/
def fieldOf (kind : psutil_process_data_kind) (p : RTL_USER_PROCESS_PARAMETERS) :
    Nat × Option Nat :=
  match kind with
  | .KIND_CMDLINE => (p.commandLine.buffer, some p.commandLine.length)
  | .KIND_CWD => (p.currentDirectoryPath.buffer, some p.currentDirectoryPath.length)
  | .KIND_ENVIRON => (p.env, none)

/-- The length computation after the switch (process_info.c:725-735): for
    `KIND_ENVIRON` the Narrower case is rejected with `AccessDenied`,
    otherwise the length is the region extent from
    `psutil_get_process_region_size`; for the other kinds it is the
    `UNICODE_STRING` byte length taken from the parameters block. -/
def computeSize (e : DataEnv) (kind : psutil_process_data_kind) : Except PyErr Nat :=
  match kind with
  | .KIND_ENVIRON =>
      if e.isNarrower then .error .accessDenied
      else match e.regionSize with
      | .error _ => .error (.windowsErr 0)
      | .ok s => .ok s
  | _ =>
      match (fieldOf kind e.procParameters).2 with
      | some s => .ok s
      | none => .ok 0

/-- `memcpy` of `src` into the front of `dst` (what ReadProcessMemory does to
    the local buffer): bytes of `src` overwrite the prefix, the rest of `dst`
    is unchanged. -/
def memWrite (dst src : List Nat) : List Nat :=
  src.take dst.length ++ dst.drop (src.take dst.length).length

/-- Allocation and copy (process_info.c:737-759): `calloc(size + 2, 1)` gives
    a zero-filled buffer of exactly `size + 2` bytes (NULL → `PyErr_NoMemory`
    and the error path); then the matching remote-read primitive copies
    `size` bytes from `src` into its front. -/
def copyStep (e : DataEnv) (src size : Nat) : Except PyErr (List Nat × Nat) :=
  if !(e.callocOK (size + 2)) then .error .noMemory
  else match e.readMem src size with
  | .error _ => .error (.windowsErr 0)
  | .ok bytes => .ok (memWrite (List.replicate (size + 2) 0) bytes, size)

/-- Result of `psutil_get_process_data`: the returned buffer (as bytes) and
    byte length, or the exception; `closes` counts the `CloseHandle`
    executions (the success path at process_info.c:761, the error label at
    769-770 which closes only a non-NULL handle). -/
structure DataRes where
  res : Except PyErr (List Nat × Nat)
  closes : Nat

/-- The body of `psutil_get_process_data` once the handle is acquired
    (process_info.c:547-759): parameters-block read, field selection, length
    computation, allocation and copy; an error anywhere is a `goto error`. -/
def processDataInner (e : DataEnv) (kind : psutil_process_data_kind) :
    Except PyErr (List Nat × Nat) :=
  match readParamsStep e with
  | .error err => .error err
  | .ok () =>
      match computeSize e kind with
      | .error err => .error err
      | .ok size => copyStep e (fieldOf kind e.procParameters).1 size

/-- `psutil_get_process_data` (process_info.c:491-774).  Failures before the
    handle is acquired return directly (no handle opened, none to close);
    after the handle is acquired every path — the success return at line 761
    and every `goto error` (all of which occur with `hProcess != NULL`, so
    the error label's guarded close fires) — executes `CloseHandle(hProcess)`
    exactly once. -/
def psutil_get_process_data (e : DataEnv) (kind : psutil_process_data_kind) :
    DataRes :=
  if !e.ntqipOK then ⟨.error (.windowsErr 0), 0⟩
  else match e.handle with
  | .error err => ⟨.error err, 0⟩
  | .ok () => ⟨processDataInner e kind, 1⟩

/-- `wcslen` on a byte buffer read two bytes (one 16-bit character) at a
    time: `some n` when the n-th 16-bit unit is the first NUL unit (every
    byte read lies inside the buffer), `none` when the scan runs off the end
    of the buffer without meeting a NUL unit (an out-of-bounds read). -/
def wcslenBytes : List Nat → Option Nat
  | [] => none
  | [_] => none
  | a :: b :: rest =>
      if a = 0 ∧ b = 0 then some 0
      else (wcslenBytes rest).map (· + 1)

/-- The `do`/`while` of `psutil_get_pids` (process_info.c:333-348), on entry
    to each iteration: grow `procArraySz` by 1024 entries, allocate
    `procArraySz * sizeof(DWORD)` bytes (failure → `PyErr_NoMemory`), call
    `EnumProcesses` (failure → windows error), and repeat exactly when the
    returned byte count equals the buffer byte size.  `enum` maps the byte
    capacity passed to `EnumProcesses` to its returned byte count (or an
    error code); `mallocOK` says whether an allocation of that many bytes
    succeeds.  Fuel bounds the recursion; `none` means the fuel ran out, a
    `some` result carries the final `procArraySz` and the returned byte
    count. -/
def psutil_get_pids_loop (enumP : Nat → Except Nat Nat) (mallocOK : Nat → Bool) :
    Nat → Nat → Option (Except PyErr (Nat × Nat))
  | 0, _ => none
  | fuel + 1, procArraySz =>
      if !(mallocOK ((procArraySz + 1024) * 4)) then some (.error .noMemory)
      else match enumP ((procArraySz + 1024) * 4) with
      | .error _ => some (.error (.windowsErr 0))
      | .ok ret =>
          if ret = (procArraySz + 1024) * 4 then
            psutil_get_pids_loop enumP mallocOK fuel (procArraySz + 1024)
          else some (.ok (procArraySz + 1024, ret))

/-- `psutil_get_pids` (process_info.c:318-354): run the growth loop starting
    from capacity 0 (the first iteration makes it 1024) and, on exit, report
    `enumReturnSz / sizeof(DWORD)` pids together with the final capacity. -/
def psutil_get_pids (enumP : Nat → Except Nat Nat) (mallocOK : Nat → Bool)
    (fuel : Nat) : Option (Except PyErr (Nat × Nat)) :=
  (psutil_get_pids_loop enumP mallocOK fuel 0).map
    (fun r => r.map (fun p => (p.2 / 4, p.1)))

/-- One `SYSTEM_PROCESS_INFORMATION` record of the fallback snapshot:
    `NextEntryOffset` (0 terminates the linked sequence per
    `PSUTIL_NEXT_PROCESS`, process_info.c:148-151), `UniqueProcessId`, and a
    stand-in for the rest of the record. -/
structure SPInfo where
  nextEntryOffset : Nat
  uniqueProcessId : Nat
  payload : Nat

/-- The `do`/`while` scan of `psutil_get_proc_info`
    (process_info.c:1016-1023) over the records laid out in the buffer:
    check the current record's id, return it on a match, otherwise follow
    `NextEntryOffset` (0 ends the scan). -/
def scanProcs (pid : Nat) : List SPInfo → Option SPInfo
  | [] => none
  | r :: rest =>
      if r.uniqueProcessId = pid then some r
      else if r.nextEntryOffset = 0 then none
      else scanProcs pid rest

/-- The linked chain actually traversed by `PSUTIL_NEXT_PROCESS`: the records
    up to and including the first one whose `NextEntryOffset` is 0. -/
def chainRecs : List SPInfo → List SPInfo
  | [] => []
  | r :: rest => if r.nextEntryOffset = 0 then [r] else r :: chainRecs rest

/-- Environment for `psutil_get_proc_info`: `gpafOK` the
    `psutil_GetProcAddressFromLib` lookup of NtQuerySystemInformation,
    `mallocOK` local allocation, `query` mapping the buffer size passed to
    `NtQuerySystemInformation` to the returned NTSTATUS and the size the OS
    writes back into `bufferSize`, and `records` the record sequence held by
    the successfully filled buffer. -/
structure SnapEnv where
  gpafOK : Bool
  mallocOK : Nat → Bool
  query : Nat → Nat × Nat
  records : List SPInfo

/-- The retry loop of `psutil_get_proc_info` (process_info.c:989-1005): query
    with the current buffer size; on `STATUS_BUFFER_TOO_SMALL` or
    `STATUS_INFO_LENGTH_MISMATCH` free the buffer, reallocate to the size the
    OS reported (failure → `PyErr_NoMemory`) and retry; on any other status
    break.  A `some` result carries the final status and the size the OS
    wrote back. -/
def psutil_get_proc_info_loop (e : SnapEnv) :
    Nat → Nat → Option (Except PyErr (Nat × Nat))
  | 0, _ => none
  | fuel + 1, bufferSize =>
      let q := e.query bufferSize
      if q.1 = STATUS_BUFFER_TOO_SMALL ∨ q.1 = STATUS_INFO_LENGTH_MISMATCH then
        if e.mallocOK q.2 then psutil_get_proc_info_loop e fuel q.2
        else some (.error .noMemory)
      else some (.ok q)

/-- `psutil_get_proc_info` (process_info.c:966-1032): resolve the syscall,
    allocate the initial buffer, run the retry loop; a final nonzero status
    is a RuntimeError; on status 0 scan the linked record sequence for the
    target pid and report `NoSuchProcess` when the scan finds no match. -/
def psutil_get_proc_info (e : SnapEnv) (pid : Nat) (fuel initialBufferSize : Nat) :
    Option (Except PyErr SPInfo) :=
  if !e.gpafOK then some (.error (.windowsErr 0))
  else if !(e.mallocOK initialBufferSize) then some (.error .noMemory)
  else match psutil_get_proc_info_loop e fuel initialBufferSize with
  | none => none
  | some (.error err) => some (.error err)
  | some (.ok q) =>
      if q.1 ≠ 0 then some (.error .runtimeError)
      else match scanProcs pid e.records with
      | some r => some (.ok r)
      | none => some (.error .noSuchProcess)

/-- `wcslen` on a sequence of 16-bit units: the number of units before the
    first NUL unit (total length if none, as C wcslen would keep reading —
    the oracle list is the memory readable at the string). -/
def wcslenUnits : List Nat → Nat
  | [] => 0
  | u :: rest => if u = 0 then 0 else wcslenUnits rest + 1

/-- Environment for `psutil_get_cmdline_data`: `ntqipOK` the
    `psutil_GetProcAddress` lookup, `callocOK` local allocation by byte
    count, `handle` the `psutil_handle_from_pid` outcome, `queryOK` the
    ProcessCommandLineInformation query, and `cmdline` the 16-bit units at
    the returned `UNICODE_STRING` buffer. -/
structure CmdEnv where
  ntqipOK : Bool
  callocOK : Nat → Bool
  handle : Except PyErr Unit
  queryOK : Bool
  cmdline : List Nat

/-- Result of `psutil_get_cmdline_data`: the returned string (16-bit units)
    and its byte size, or the exception; `closes` counts the `CloseHandle`
    executions on an assigned handle; `closesUnassigned` records that the
    cleanup's `if (hProcess != NULL) CloseHandle(hProcess)` was reached while
    the local `hProcess` variable had never been assigned (its value is
    indeterminate, so the branch reads uninitialized memory and may close an
    arbitrary handle). -/
structure CmdRes where
  res : Except PyErr (List Nat × Nat)
  closes : Nat
  closesUnassigned : Bool

/-- `psutil_get_cmdline_data` (process_info.c:782-841).  `HANDLE hProcess` is
    declared without an initializer (line 784); the `goto error` paths taken
    before line 804 assigns it — the NtQueryInformationProcess address lookup
    failing (line 795) and the initial `calloc` failing (line 799) — reach
    the cleanup with `hProcess` unassigned. -/
def psutil_get_cmdline_data (e : CmdEnv) : CmdRes :=
  if !e.ntqipOK then ⟨.error (.windowsErr 0), 0, true⟩
  else if !(e.callocOK 4096) then ⟨.error .noMemory, 0, true⟩
  else match e.handle with
  | .error err => ⟨.error err, 0, false⟩
  | .ok () =>
      if !e.queryOK then ⟨.error (.windowsErr 0), 1, false⟩
      else
        let string_size := wcslenUnits e.cmdline + 1
        if !(e.callocOK (string_size * 2)) then ⟨.error .noMemory, 1, false⟩
        else
          ⟨.ok (e.cmdline.takeWhile (· ≠ 0) ++ [0], string_size * 2), 1, false⟩

/-! Concrete environments used by counterexamples and witnesses. -/

/-- OpenProcess succeeds, GetExitCodeProcess returns exit code 9 (not the
    sentinel), pid 42 is in the enumerated pid table, normal mode. -/
def phrEnvC1 : PhrEnv := ⟨false, 0, some (), .ok 9, .ok [42]⟩

/-- Testing mode, handle open, GetExitCodeProcess returns `STILL_ACTIVE`,
    enumerated pid table empty. -/
def phrEnvC4 : PhrEnv := ⟨true, 0, some (), .ok STILL_ACTIVE, .ok []⟩

/-- Normal mode, OpenProcess fails with `ERROR_INVALID_PARAMETER`, yet pid 7
    is in the enumerated pid table. -/
def phrEnvC8 : PhrEnv := ⟨false, ERROR_INVALID_PARAMETER, none, .ok 0, .ok [7]⟩

/-- Same as `phrEnvC8` but with `PSUTIL_TESTING` enabled. -/
def phrEnvC8w : PhrEnv := ⟨true, ERROR_INVALID_PARAMETER, none, .ok 0, .ok [7]⟩

/-- A 64-bit inspector reading a 64-bit target, every syscall succeeding; the
    current-directory field has byte length 1 (an odd length) and its bytes
    read back as 65. -/
def dataEnvOdd : DataEnv where
  inspector64 := true
  ntqipOK := true
  handle := .ok ()
  wow64InfoOK := true
  ppeb32 := none
  isWowOK := true
  weAreWow64 := false
  theyAreWow64 := false
  ntWow64QueryOK := true
  ntWow64ReadOK := true
  queryBasicOK := true
  readPebOK := true
  readParamsOK := true
  procParameters := ⟨⟨6, 300⟩, ⟨1, 500⟩, 700⟩
  regionSize := .ok 4
  callocOK := fun _ => true
  readMem := fun _ n => .ok (List.replicate n 65)

/-- Same inspector but the current-directory field has the even byte
    length 2. -/
def dataEnvEven : DataEnv :=
  { dataEnvOdd with procParameters := ⟨⟨6, 300⟩, ⟨2, 500⟩, 700⟩ }

/-- Same as `dataEnvOdd` but every local allocation fails. -/
def dataEnvNoMem : DataEnv := { dataEnvOdd with callocOK := fun _ => false }

/-- The Narrower configuration: a 32-bit inspector under WoW64 and a 64-bit
    target, with every syscall succeeding. -/
def dataEnvNarrow : DataEnv :=
  { dataEnvOdd with inspector64 := false, weAreWow64 := true,
                    theyAreWow64 := false }

/-- `NtQueryInformationProcess` address lookup fails before the cmdline
    call's handle variable is ever assigned. -/
def cmdEnvC9 : CmdEnv := ⟨false, fun _ => true, .ok (), true, [72, 105, 0]⟩

/-- The initial 4096-byte `calloc` fails before the cmdline call's handle
    variable is ever assigned. -/
def cmdEnvC9b : CmdEnv := ⟨true, fun _ => false, .ok (), true, [72, 105, 0]⟩

/-- `EnumProcesses` oracle returning `min capacity 4100` bytes: it exactly
    fills a 1024-entry (4096-byte) buffer and returns 4100 bytes into the
    grown 2048-entry buffer. -/
def enumW : Nat → Except Nat Nat := fun n => .ok (min n 4100)

/-- Snapshot environment: the query demands 100 bytes when offered fewer,
    then succeeds; the buffer holds a two-record chain (pids 4 and 7) and a
    third record (pid 9) past the chain's terminating zero offset. -/
def snapEnvW : SnapEnv where
  gpafOK := true
  mallocOK := fun _ => true
  query := fun n => if n < 100 then (STATUS_BUFFER_TOO_SMALL, 100) else (0, 100)
  records := [⟨16, 4, 0⟩, ⟨0, 7, 1⟩, ⟨0, 9, 2⟩]

/-! Theorems. -/

/-- C5: pid 0 is never `NotFound`: for every environment and every
    access-rights set, `psutil_handle_from_pid(0, access)` fails with
    `AccessDenied`, and `psutil_pid_is_running(0)` succeeds returning 1
    (Running) with no exception. -/
theorem pid_zero_c5 (e : PhrEnv) (dwDesiredAccess : Nat) :
    psutil_handle_from_pid e 0 dwDesiredAccess = .error .accessDenied ∧
    psutil_pid_is_running e 0 = (1, none) :=
  ⟨rfl, rfl⟩

/-- C4 (code bug): in `psutil_get_process_data` every path taken after the
    handle is acquired closes it exactly once; but in
    `psutil_is_phandle_running`, on the testing-mode path where
    `GetExitCodeProcess` returns `STILL_ACTIVE` and the pid is absent from
    the enumerated table, the call returns -2 (AssertionError) without
    closing the open handle and without the handle being the returned value
    — the handle is leaked. -/
theorem handle_release_c4 :
    (∀ (e : DataEnv) (kind : psutil_process_data_kind),
      (psutil_get_process_data
        { e with ntqipOK := true, handle := .ok () } kind).closes = 1) ∧
    psutil_is_phandle_running phrEnvC4 (some ()) 7 =
      ⟨-2, 0, some .assertionError⟩ := by
  exact ⟨fun e kind => rfl, rfl⟩

/-- C9 (code bug): in `psutil_get_cmdline_data` the local `HANDLE hProcess`
    is declared without an initializer, and the error paths taken before it
    is assigned — the NtQueryInformationProcess address lookup failing, and
    the initial 4096-byte allocation failing — reach the cleanup's
    `if (hProcess != NULL) CloseHandle(hProcess)` with the variable still
    unassigned (an uninitialized read that may close an arbitrary handle);
    once the lookup and the allocation succeed no path reads the variable
    unassigned. -/
theorem cmdline_data_unassigned_handle_c9 :
    (psutil_get_cmdline_data cmdEnvC9).closesUnassigned = true ∧
    (psutil_get_cmdline_data cmdEnvC9b).closesUnassigned = true ∧
    (∀ e : CmdEnv,
      (psutil_get_cmdline_data
        { e with ntqipOK := true, callocOK := fun _ => true }
      ).closesUnassigned = false) := by
  refine ⟨rfl, rfl, fun e => ?_⟩
  cases he : e.handle with
  | error err => simp [psutil_get_cmdline_data, he]
  | ok u =>
      cases u
      cases hq : e.queryOK <;> simp [psutil_get_cmdline_data, he, hq]

/-- C1 counterexample: with the termination-status query succeeding and
    returning 9 (not the sentinel), the code does not report NotRunning — it
    consults the pid table, finds pid 42, and reports Running, in both
    `psutil_pid_is_running` and `psutil_is_phandle_running`. -/
theorem pid_is_running_nonsentinel_cex :
    phrEnvC1.openProcess = some () ∧ phrEnvC1.getExitCode = .ok 9 ∧
    (9 : Nat) ≠ STILL_ACTIVE ∧
    psutil_pid_is_running phrEnvC1 42 = (1, none) ∧
    psutil_is_phandle_running phrEnvC1 (some ()) 42 = ⟨1, 0, none⟩ :=
  ⟨rfl, rfl, by decide, rfl, rfl⟩

/-- C1 as amended: in normal (non-testing) mode, when `OpenProcess` and the
    termination-status query both succeed, the sentinel `STILL_ACTIVE` value
    reports Running; any other exit code defers to the table-membership
    probe, whose verdict (`psutil_pid_in_pids`) is returned as is. -/
theorem pid_is_running_exitcode_c1 (e : PhrEnv) (pid exitCode : Nat)
    (hpid : pid ≠ 0) (hopen : e.openProcess = some ())
    (hexit : e.getExitCode = .ok exitCode) (htest : e.testing = false) :
    (exitCode = STILL_ACTIVE → psutil_pid_is_running e pid = (1, none)) ∧
    (exitCode ≠ STILL_ACTIVE →
      (psutil_pid_is_running e pid).1 = psutil_pid_in_pids e pid) := by
  refine ⟨fun hc => ?_, fun hc => ?_⟩
  · simp [psutil_pid_is_running, hpid, hopen, hexit, hc,
          psutil_assert_pid_exists, htest]
  · simp [psutil_pid_is_running, hpid, hopen, hexit, hc]

/-- C1 witness: the amended theorem applied at `phrEnvC1`, where exit code 9
    is not the sentinel and the table probe reports pid 42 present, so the
    call returns the probe's verdict 1. -/
theorem pid_is_running_exitcode_c1_witness :
    (psutil_pid_is_running phrEnvC1 42).1 = psutil_pid_in_pids phrEnvC1 42 ∧
    psutil_pid_in_pids phrEnvC1 42 = 1 :=
  ⟨(pid_is_running_exitcode_c1 phrEnvC1 42 9 (by decide) rfl rfl rfl).2
    (by decide), rfl⟩

/-- C8 counterexample: in normal (non-testing) mode, when `OpenProcess`
    fails with `ERROR_INVALID_PARAMETER`, the code reports NotFound without
    any table-membership confirmation: here the table probe would have
    reported the pid present (the two probes disagree), and the call still
    returns 0 (NotFound) in both `psutil_pid_is_running` and
    `psutil_is_phandle_running`. -/
theorem pid_is_running_invalid_param_cex :
    phrEnvC8.openProcess = none ∧
    phrEnvC8.lastError = ERROR_INVALID_PARAMETER ∧
    psutil_pid_in_pids phrEnvC8 7 = 1 ∧
    psutil_pid_is_running phrEnvC8 7 = (0, none) ∧
    psutil_is_phandle_running phrEnvC8 none 7 = ⟨0, 0, none⟩ :=
  ⟨rfl, rfl, rfl, rfl, rfl⟩

/-- C8 as amended: only under the test-only assertion mode
    (`PSUTIL_TESTING`) is the `ERROR_INVALID_PARAMETER` NotFound verdict
    checked against the table-membership probe: there, if the probe reports
    the pid present the call escalates as an AssertionError instead of
    returning NotFound, and returns NotFound otherwise; in normal operation
    the probe is skipped (see the counterexample). -/
theorem pid_is_running_invalid_param_c8 (e : PhrEnv) (pid : Nat)
    (hpid : pid ≠ 0) (hopen : e.openProcess = none)
    (herr : e.lastError = ERROR_INVALID_PARAMETER) (htest : e.testing = true) :
    (psutil_pid_in_pids e pid = 1 →
      psutil_pid_is_running e pid = (-1, some .assertionError) ∧
      psutil_is_phandle_running e none pid = ⟨-2, 0, some .assertionError⟩) ∧
    (psutil_pid_in_pids e pid ≠ 1 →
      psutil_pid_is_running e pid = (0, none) ∧
      psutil_is_phandle_running e none pid = ⟨0, 0, none⟩) := by
  refine ⟨fun h => ?_, fun h => ?_⟩ <;>
    constructor <;>
      simp [psutil_pid_is_running, psutil_is_phandle_running, hpid, hopen,
            herr, psutil_assert_pid_not_exists, htest, h]

/-- C8 witness: the amended theorem applied at `phrEnvC8w` (testing mode,
    open failed with `ERROR_INVALID_PARAMETER`, pid 7 present in the table):
    the call escalates as an AssertionError. -/
theorem pid_is_running_invalid_param_c8_witness :
    psutil_pid_is_running phrEnvC8w 7 = (-1, some .assertionError) ∧
    psutil_is_phandle_running phrEnvC8w none 7 =
      ⟨-2, 0, some .assertionError⟩ :=
  (pid_is_running_invalid_param_c8 phrEnvC8w 7 (by decide) rfl rfl rfl).1
    rfl

/-- Writing `src` over the front of `dst` preserves the buffer size. -/
theorem memWrite_length (dst src : List Nat) :
    (memWrite dst src).length = dst.length := by
  unfold memWrite
  simp [List.length_take]

/-- When the copied data fits, the written buffer is the data followed by
    the untouched tail of the original buffer. -/
theorem memWrite_eq (dst src : List Nat) (h : src.length ≤ dst.length) :
    memWrite dst src = src ++ dst.drop src.length := by
  unfold memWrite
  rw [List.take_of_length_le h]

/-- A successful `psutil_get_process_data` result is a successful
    `processDataInner` result (the pre-handle failure paths return errors). -/
theorem get_process_data_ok_inv (e : DataEnv) (kind : psutil_process_data_kind)
    (r : List Nat × Nat)
    (h : (psutil_get_process_data e kind).res = .ok r) :
    processDataInner e kind = .ok r := by
  unfold psutil_get_process_data at h
  cases hq : e.ntqipOK <;> rw [hq] at h
  · simp at h
  · cases hh : e.handle with
    | error err => rw [hh] at h; simp at h
    | ok u => cases u; rw [hh] at h; exact h

/-- A successful `processDataInner` passed through every stage: the
    parameters-block read, the length computation and the copy. -/
theorem processDataInner_ok_inv (e : DataEnv) (kind : psutil_process_data_kind)
    (r : List Nat × Nat) (h : processDataInner e kind = .ok r) :
    readParamsStep e = .ok () ∧ ∃ size, computeSize e kind = .ok size ∧
      copyStep e (fieldOf kind e.procParameters).1 size = .ok r := by
  unfold processDataInner at h
  cases hr : readParamsStep e with
  | error err => rw [hr] at h; simp at h
  | ok u =>
      cases u
      rw [hr] at h
      cases hc : computeSize e kind with
      | error err => rw [hc] at h; simp at h
      | ok size => rw [hc] at h; exact ⟨rfl, size, rfl, h⟩

/-- A successful `copyStep` allocated exactly `size + 2` zeroed bytes and
    copied the remote bytes over the front. -/
theorem copyStep_ok_inv (e : DataEnv) (src size : Nat) (buf : List Nat)
    (sz : Nat) (h : copyStep e src size = .ok (buf, sz)) :
    sz = size ∧ e.callocOK (size + 2) = true ∧
    ∃ bytes, e.readMem src size = .ok bytes ∧
      buf = memWrite (List.replicate (size + 2) 0) bytes := by
  unfold copyStep at h
  cases hc : e.callocOK (size + 2) <;> rw [hc] at h
  · simp at h
  · cases hm : e.readMem src size with
    | error u => rw [hm] at h; simp at h
    | ok bytes =>
        rw [hm] at h
        simp only [Bool.not_true, Bool.false_eq_true, if_false,
                   Except.ok.injEq, Prod.mk.injEq] at h
        exact ⟨h.2.symm, rfl, bytes, rfl, h.1.symm⟩

/-- When every syscall of the call succeeds, the parameters-block read
    completes in each of the bitness branches. -/
theorem readParamsStep_ok_of_allCallsOK (e : DataEnv) (h : e.allCallsOK) :
    readParamsStep e = .ok () := by
  obtain ⟨-, -, h3, h4, h5, h6, h7, h8, h9, -, -, -⟩ := h
  unfold readParamsStep
  cases hi : e.inspector64
  · simp only [Bool.false_eq_true, if_false, h4, h5, h6, h7, h8, h9,
               Bool.not_true, Bool.not_false, if_true]
    cases hw : (e.weAreWow64 && !e.theyAreWow64) <;> simp
  · simp only [if_true, h3, h7, h8, h9, Bool.not_true, Bool.false_eq_true,
               if_false]
    cases hp : e.ppeb32 <;> simp

/-- An even-byte-length prefix followed by the two zero fill bytes always
    contains a NUL 16-bit unit at a unit boundary, so the 16-bit scan stays
    inside the buffer. -/
theorem wcslen_append_ok (xs : List Nat) (h : xs.length % 2 = 0) :
    (wcslenBytes (xs ++ [0, 0])).isSome = true :=
  match xs with
  | [] => rfl
  | [_] => by simp at h
  | a :: b :: rest => by
      have ih := wcslen_append_ok rest ((Nat.add_mod_right rest.length 2).symm.trans h)
      by_cases hab : a = 0 ∧ b = 0
      · simp [wcslenBytes, hab]
      · simp [wcslenBytes, hab, ih]

/-- C2: environment-block extraction in the Narrower bitness case (32-bit
    inspector under WoW64, 64-bit target) never succeeds, and when every
    syscall succeeds it fails precisely with `AccessDenied`; every other
    (kind, bitness) combination is attempted — with every syscall
    succeeding, the extraction completes. -/
theorem process_data_environ_bitness_c2 (e : DataEnv)
    (kind : psutil_process_data_kind) :
    (e.isNarrower = true → kind = .KIND_ENVIRON →
      (∀ r, (psutil_get_process_data e kind).res ≠ .ok r) ∧
      (e.allCallsOK →
        (psutil_get_process_data e kind).res = .error .accessDenied)) ∧
    (e.allCallsOK → ¬(e.isNarrower = true ∧ kind = .KIND_ENVIRON) →
      ∃ r, (psutil_get_process_data e kind).res = .ok r) := by
  constructor
  · intro hn hk
    subst hk
    constructor
    · intro r hok
      have hin := get_process_data_ok_inv e _ r hok
      obtain ⟨-, size, hc, -⟩ := processDataInner_ok_inv e _ r hin
      simp [computeSize, hn] at hc
    · intro hall
      have hr := readParamsStep_ok_of_allCallsOK e hall
      obtain ⟨h1, h2, -⟩ := hall
      simp [psutil_get_process_data, processDataInner, computeSize,
            h1, h2, hr, hn]
  · intro hall hne
    obtain ⟨h1, h2, h3, h4, h5, h6, h7, h8, h9, ⟨s, hs⟩, hcal, hread⟩ := hall
    have hr := readParamsStep_ok_of_allCallsOK e
      ⟨h1, h2, h3, h4, h5, h6, h7, h8, h9, ⟨s, hs⟩, hcal, hread⟩
    have hsize : ∃ size, computeSize e kind = .ok size := by
      cases kind with
      | KIND_CMDLINE => exact ⟨_, rfl⟩
      | KIND_CWD => exact ⟨_, rfl⟩
      | KIND_ENVIRON =>
          have hn : e.isNarrower = false := by
            cases hh : e.isNarrower
            · rfl
            · exact absurd ⟨hh, rfl⟩ hne
          exact ⟨s, by simp [computeSize, hn, hs]⟩
    obtain ⟨size, hsz⟩ := hsize
    obtain ⟨bs, hbs⟩ := hread (fieldOf kind e.procParameters).1 size
    refine ⟨(memWrite (List.replicate (size + 2) 0) bs, size), ?_⟩
    simp [psutil_get_process_data, processDataInner, copyStep,
          h1, h2, hr, hsz, hbs, hcal]

/-- C2 witness: the theorem applied at the concrete Narrower environment
    `dataEnvNarrow`: environment extraction is rejected with `AccessDenied`
    while command-line extraction in the very same configuration succeeds. -/
theorem process_data_environ_bitness_c2_witness :
    (psutil_get_process_data dataEnvNarrow .KIND_ENVIRON).res =
      .error .accessDenied ∧
    ∃ r, (psutil_get_process_data dataEnvNarrow .KIND_CMDLINE).res = .ok r :=
  ⟨((process_data_environ_bitness_c2 dataEnvNarrow .KIND_ENVIRON).1 rfl rfl).2
      ⟨rfl, rfl, rfl, rfl, rfl, rfl, rfl, rfl, rfl, ⟨4, rfl⟩,
       fun _ => rfl, fun _ n => ⟨List.replicate n 65, rfl⟩⟩,
   (process_data_environ_bitness_c2 dataEnvNarrow .KIND_CMDLINE).2
      ⟨rfl, rfl, rfl, rfl, rfl, rfl, rfl, rfl, rfl, ⟨4, rfl⟩,
       fun _ => rfl, fun _ n => ⟨List.replicate n 65, rfl⟩⟩
      (by simp)⟩

/-- C3: a successful extraction allocated a buffer of exactly
    length-plus-two bytes (the length is a `Nat`, hence non-negative), and a
    computed length whose length-plus-two-byte allocation cannot succeed is
    rejected with `OutOfMemory` instead of being read into. -/
theorem process_data_alloc_c3 (e : DataEnv) (kind : psutil_process_data_kind) :
    (∀ buf sz, (psutil_get_process_data e kind).res = .ok (buf, sz) →
      e.callocOK (sz + 2) = true ∧ buf.length = sz + 2) ∧
    (∀ size, e.ntqipOK = true → e.handle = .ok () →
      readParamsStep e = .ok () → computeSize e kind = .ok size →
      e.callocOK (size + 2) = false →
      (psutil_get_process_data e kind).res = .error .noMemory) := by
  constructor
  · intro buf sz hok
    have hin := get_process_data_ok_inv e kind (buf, sz) hok
    obtain ⟨-, size, -, hcopy⟩ := processDataInner_ok_inv e kind (buf, sz) hin
    obtain ⟨hsz, hcal, bytes, -, hbuf⟩ := copyStep_ok_inv e _ size buf sz hcopy
    subst hsz
    exact ⟨hcal, by rw [hbuf, memWrite_length, List.length_replicate]⟩
  · intro size h1 h2 hr hsz hcal
    simp [psutil_get_process_data, processDataInner, copyStep,
          h1, h2, hr, hsz, hcal]

/-- C3 witness: the theorem applied at `dataEnvNoMem` (allocation always
    fails: the call reports `OutOfMemory`) and at `dataEnvOdd` (the
    successful 1-byte current-directory read yields a 3-byte buffer). -/
theorem process_data_alloc_c3_witness :
    (psutil_get_process_data dataEnvNoMem .KIND_CWD).res = .error .noMemory ∧
    (dataEnvOdd.callocOK (1 + 2) = true ∧
      ([65, 0, 0] : List Nat).length = 1 + 2) :=
  ⟨(process_data_alloc_c3 dataEnvNoMem .KIND_CWD).2 1 rfl rfl rfl rfl rfl,
   (process_data_alloc_c3 dataEnvOdd .KIND_CWD).1 [65, 0, 0] 1 rfl⟩

/-- C10 counterexample: a successful extraction whose field length is odd
    (here the 1-byte current-directory field of `dataEnvOdd`, whose single
    byte is nonzero) yields the buffer `[65, 0, 0]`, and the 16-bit `wcslen`
    scan over it finds no NUL unit at a unit boundary before running off the
    end of the buffer — the scan does not stay within the buffer. -/
theorem process_data_oddsize_wcslen_cex :
    (psutil_get_process_data dataEnvOdd .KIND_CWD).res = .ok ([65, 0, 0], 1) ∧
    wcslenBytes [65, 0, 0] = none := by
  exact ⟨rfl, rfl⟩

/-- C10 as amended: a successful `psutil_get_process_data` returns a buffer
    of length-plus-two bytes whose first `length` bytes are exactly the
    bytes read from the target and whose final two bytes are the zero fill
    of the `calloc`; provided the field length is even (as every genuine
    16-bit-character string length is), the buffer contains a NUL 16-bit
    unit, so the `wcslen` performed by `psutil_get_cwd` stays within the
    buffer. -/
theorem process_data_buffer_c10 (e : DataEnv) (kind : psutil_process_data_kind)
    (buf : List Nat) (sz : Nat)
    (hread : ∀ a n bs, e.readMem a n = .ok bs → bs.length = n)
    (hok : (psutil_get_process_data e kind).res = .ok (buf, sz)) :
    buf.length = sz + 2 ∧ buf.drop sz = [0, 0] ∧
    e.readMem (fieldOf kind e.procParameters).1 sz = .ok (buf.take sz) ∧
    (sz % 2 = 0 → (wcslenBytes buf).isSome = true) := by
  have hin := get_process_data_ok_inv e kind (buf, sz) hok
  obtain ⟨-, size, -, hcopy⟩ := processDataInner_ok_inv e kind (buf, sz) hin
  obtain ⟨hsz, -, bytes, hbs, hbuf⟩ := copyStep_ok_inv e _ size buf sz hcopy
  subst hsz
  have hlen : bytes.length = sz := hread _ _ _ hbs
  have hbuf2 : buf = bytes ++ [0, 0] := by
    rw [hbuf, memWrite_eq]
    · rw [hlen, List.drop_replicate]
      have h2 : sz + 2 - sz = 2 := Nat.add_sub_cancel_left sz 2
      rw [h2]
      rfl
    · rw [hlen, List.length_replicate]
      exact Nat.le_add_right sz 2
  subst hbuf2
  refine ⟨?_, ?_, ?_, ?_⟩
  · simp [hlen]
  · rw [← hlen, List.drop_left]
  · rw [← hlen, List.take_left, hlen]
    exact hbs
  · intro heven
    exact wcslen_append_ok bytes (by rw [hlen]; exact heven)

/-- C10 witness: the amended theorem applied at `dataEnvEven`, whose 2-byte
    current-directory read yields the buffer `[65, 65, 0, 0]`: the first two
    bytes are the remote bytes, the final two are zero, and the 16-bit scan
    terminates inside the buffer. -/
theorem process_data_buffer_c10_witness :
    ([65, 65, 0, 0] : List Nat).length = 2 + 2 ∧
    ([65, 65, 0, 0] : List Nat).drop 2 = [0, 0] ∧
    dataEnvEven.readMem (fieldOf .KIND_CWD dataEnvEven.procParameters).1 2 =
      .ok (([65, 65, 0, 0] : List Nat).take 2) ∧
    (2 % 2 = 0 → (wcslenBytes [65, 65, 0, 0]).isSome = true) :=
  process_data_buffer_c10 dataEnvEven .KIND_CWD [65, 65, 0, 0] 2
    (by intro a n bs h
        simp only [dataEnvEven, dataEnvOdd, Except.ok.injEq] at h
        rw [← h, List.length_replicate])
    rfl

/-- No multiple-of-1024 step lands strictly between a capacity and the next
    1024-larger capacity. -/
theorem mod1024_none_between (sz c : Nat) (h1 : sz < c) (h2 : c < sz + 1024)
    (h3 : (c - sz) % 1024 = 0) : False := by
  have hd : 1024 ∣ (c - sz) := Nat.dvd_of_mod_eq_zero h3
  have hge : 1024 ≤ c - sz := Nat.le_of_dvd (Nat.sub_pos_of_lt h1) hd
  have hlt : c - sz < 1024 := Nat.sub_lt_left_of_lt_add (Nat.le_of_lt h1) h2
  exact absurd (Nat.lt_of_le_of_lt hge hlt) (Nat.lt_irrefl 1024)

/-- A multiple-of-1024 step past a capacity, other than the very next one,
    is also a multiple-of-1024 step past the next capacity. -/
theorem mod1024_step_in (sz c : Nat) (h1 : sz < c)
    (h3 : (c - sz) % 1024 = 0) (hne : c ≠ sz + 1024) :
    sz + 1024 < c ∧ (c - (sz + 1024)) % 1024 = 0 := by
  have hd : 1024 ∣ (c - sz) := Nat.dvd_of_mod_eq_zero h3
  have hge : 1024 ≤ c - sz := Nat.le_of_dvd (Nat.sub_pos_of_lt h1) hd
  have hle : sz + 1024 ≤ c := by
    rw [Nat.add_comm]
    exact Nat.add_le_of_le_sub (Nat.le_of_lt h1) hge
  refine ⟨Nat.lt_of_le_of_ne hle (fun heq => hne heq.symm), ?_⟩
  have heq : c - (sz + 1024) = c - sz - 1024 := (Nat.sub_sub c sz 1024).symm
  rw [heq]
  exact Nat.mod_eq_zero_of_dvd (Nat.dvd_sub' hd (dvd_refl 1024))

/-- A multiple-of-1024 distance from the next capacity is a
    multiple-of-1024 distance from the current one. -/
theorem mod1024_step_out (sz cap : Nat) (hle : sz + 1024 ≤ cap)
    (h4 : (cap - (sz + 1024)) % 1024 = 0) : (cap - sz) % 1024 = 0 := by
  have hd : 1024 ∣ (cap - (sz + 1024)) := Nat.dvd_of_mod_eq_zero h4
  have hsz : sz ≤ cap := Nat.le_trans (Nat.le_add_right sz 1024) hle
  have h1 : 1024 ≤ cap - sz := Nat.le_sub_of_add_le (by rw [Nat.add_comm]; exact hle)
  rw [(Nat.sub_sub cap sz 1024).symm] at hd
  have h2 : cap - sz = (cap - sz - 1024) + 1024 := (Nat.sub_add_cancel h1).symm
  rw [h2]
  exact Nat.mod_eq_zero_of_dvd (Nat.dvd_add hd (dvd_refl 1024))

/-- Invariant of the `psutil_get_pids` growth loop: a successful exit from
    start capacity `sz` ends at a capacity reached from `sz` in 1024-entry
    increments, every intermediate capacity was exactly filled (which is what
    made the loop repeat), and the final enumeration returned a byte count
    different from the final capacity's byte size. -/
theorem get_pids_loop_ok (enumP : Nat → Except Nat Nat) (mallocOK : Nat → Bool) :
    ∀ (fuel sz cap ret : Nat),
      psutil_get_pids_loop enumP mallocOK fuel sz = some (.ok (cap, ret)) →
      enumP (cap * 4) = .ok ret ∧ ret ≠ cap * 4 ∧ sz < cap ∧
      (cap - sz) % 1024 = 0 ∧
      (∀ c, sz < c → c < cap → (c - sz) % 1024 = 0 →
        enumP (c * 4) = .ok (c * 4)) := by
  intro fuel
  induction fuel with
  | zero => intro sz cap ret h; simp [psutil_get_pids_loop] at h
  | succ f ih =>
      intro sz cap ret h
      unfold psutil_get_pids_loop at h
      cases hm : mallocOK ((sz + 1024) * 4) <;> rw [hm] at h
      · simp at h
      · cases he : enumP ((sz + 1024) * 4) with
        | error c => rw [he] at h; simp at h
        | ok r =>
            rw [he] at h
            simp only [Bool.not_true, Bool.false_eq_true, if_false] at h
            by_cases hr : r = (sz + 1024) * 4
            · rw [if_pos hr] at h
              obtain ⟨h1, h2, h3, h4, h5⟩ := ih (sz + 1024) cap ret h
              refine ⟨h1, h2,
                Nat.lt_of_le_of_lt (Nat.le_add_right sz 1024) h3,
                mod1024_step_out sz cap (Nat.le_of_lt h3) h4, ?_⟩
              intro c hc1 hc2 hc3
              by_cases hce : c = sz + 1024
              · rw [hce, he, hr]
              · obtain ⟨hlt, hmod⟩ := mod1024_step_in sz c hc1 hc3 hce
                exact h5 c hlt hc2 hmod
            · rw [if_neg hr] at h
              simp only [Option.some.injEq, Except.ok.injEq,
                         Prod.mk.injEq] at h
              obtain ⟨rfl, rfl⟩ := h
              refine ⟨he, hr, Nat.lt_add_of_pos_right (by decide),
                by rw [Nat.add_sub_cancel_left, Nat.mod_self], ?_⟩
              intro c hc1 hc2 hc3
              exact (mod1024_none_between sz c hc1 hc2 hc3).elim

/-- C6: whenever `psutil_get_pids` returns (with `EnumProcesses` never
    returning more bytes than the buffer holds), the final capacity is a
    positive multiple of 1024 entries, every smaller multiple-of-1024
    capacity was tried and exactly filled (the loop repeated precisely on
    that equality), and the reported pid count is the returned byte count
    divided by the 4-byte entry size, strictly below the final capacity —
    the returned set is not truncated. -/
theorem get_pids_growth_c6 (enumP : Nat → Except Nat Nat)
    (mallocOK : Nat → Bool) (fuel count cap : Nat)
    (hbound : ∀ n r, enumP n = .ok r → r ≤ n)
    (h : psutil_get_pids enumP mallocOK fuel = some (.ok (count, cap))) :
    1024 ∣ cap ∧ 1024 ≤ cap ∧ count < cap ∧
    (∀ c, 0 < c → c < cap → c % 1024 = 0 → enumP (c * 4) = .ok (c * 4)) ∧
    ∃ ret, enumP (cap * 4) = .ok ret ∧ ret ≠ cap * 4 ∧ count = ret / 4 := by
  unfold psutil_get_pids at h
  cases hl : psutil_get_pids_loop enumP mallocOK fuel 0 with
  | none => rw [hl] at h; simp at h
  | some x =>
      rw [hl] at h
      cases x with
      | error err => simp [Except.map] at h
      | ok p =>
          obtain ⟨fcap, fret⟩ := p
          simp only [Option.map_some', Except.map, Option.some.injEq,
                     Except.ok.injEq, Prod.mk.injEq] at h
          obtain ⟨rfl, rfl⟩ := h
          obtain ⟨h1, h2, h3, h4, h5⟩ :=
            get_pids_loop_ok enumP mallocOK fuel 0 fcap fret hl
          have hle := hbound _ _ h1
          have hmod : fcap % 1024 = 0 := Nat.sub_zero fcap ▸ h4
          have hdvd : 1024 ∣ fcap := Nat.dvd_of_mod_eq_zero hmod
          refine ⟨hdvd, Nat.le_of_dvd h3 hdvd,
                  (Nat.div_lt_iff_lt_mul (by decide)).2
                    (Nat.lt_of_le_of_ne hle h2),
                  ?_, fret, h1, h2, rfl⟩
          intro c hc1 hc2 hc3
          exact h5 c hc1 hc2 ((Nat.sub_zero c).symm ▸ hc3)

/-- C6 witness: the theorem applied to the concrete oracle `enumW`: the
    1024-entry buffer is exactly filled, the loop grows it to 2048 entries,
    the second call returns 4100 bytes, and the call reports 1025 pids in a
    2048-entry buffer. -/
theorem get_pids_growth_c6_witness :
    1024 ∣ 2048 ∧ 1024 ≤ 2048 ∧ 1025 < 2048 ∧
    (∀ c, 0 < c → c < 2048 → c % 1024 = 0 → enumW (c * 4) = .ok (c * 4)) ∧
    ∃ ret, enumW (2048 * 4) = .ok ret ∧ ret ≠ 2048 * 4 ∧ 1025 = ret / 4 :=
  get_pids_growth_c6 enumW (fun _ => true) 5 1025 2048
    (fun n r h => by
      simp only [enumW, Except.ok.injEq] at h
      exact h ▸ Nat.min_le_left n 4100)
    rfl

/-- The do/while scan of the fallback snapshot equals a first-match search
    over the traversed linked chain. -/
theorem scanProcs_eq_find (pid : Nat) : ∀ l : List SPInfo,
    scanProcs pid l =
      (chainRecs l).find? (fun r => r.uniqueProcessId == pid)
  | [] => rfl
  | r :: rest => by
      unfold scanProcs chainRecs
      by_cases h1 : r.uniqueProcessId = pid
      · by_cases h2 : r.nextEntryOffset = 0 <;> simp [h1, h2, List.find?]
      · by_cases h2 : r.nextEntryOffset = 0 <;>
          simp [h1, h2, List.find?, scanProcs_eq_find pid rest]

/-- C7: the fallback snapshotter retries exactly when the query status is
    one of the two buffer-too-small codes, each retry reallocating to the
    size the OS wrote back; any other status ends the loop with that query's
    outcome; and on a status-0 (successful) query the call returns the first
    record of the traversed linked chain whose id equals the target pid, or
    `NoSuchProcess` (NotFound) when the chain holds no match. -/
theorem get_proc_info_retry_scan_c7 (e : SnapEnv) :
    (∀ fuel bufSize,
      ((e.query bufSize).1 = STATUS_BUFFER_TOO_SMALL ∨
       (e.query bufSize).1 = STATUS_INFO_LENGTH_MISMATCH) →
      e.mallocOK (e.query bufSize).2 = true →
      psutil_get_proc_info_loop e (fuel + 1) bufSize =
        psutil_get_proc_info_loop e fuel (e.query bufSize).2) ∧
    (∀ fuel bufSize,
      ¬((e.query bufSize).1 = STATUS_BUFFER_TOO_SMALL ∨
        (e.query bufSize).1 = STATUS_INFO_LENGTH_MISMATCH) →
      psutil_get_proc_info_loop e (fuel + 1) bufSize =
        some (.ok (e.query bufSize))) ∧
    (∀ pid fuel initialBufferSize finalSize,
      e.gpafOK = true → e.mallocOK initialBufferSize = true →
      psutil_get_proc_info_loop e fuel initialBufferSize =
        some (.ok (0, finalSize)) →
      psutil_get_proc_info e pid fuel initialBufferSize =
        some (match (chainRecs e.records).find?
                (fun r => r.uniqueProcessId == pid) with
              | some r => .ok r
              | none => .error .noSuchProcess)) := by
  refine ⟨fun fuel bufSize hs hm => ?_, fun fuel bufSize hs => ?_,
          fun pid fuel init fsz h1 h2 hl => ?_⟩
  · conv_lhs => rw [psutil_get_proc_info_loop]
    rw [if_pos hs, hm]
    simp
  · conv_lhs => rw [psutil_get_proc_info_loop]
    rw [if_neg hs]
  · unfold psutil_get_proc_info
    rw [h1, h2, hl]
    simp only [Bool.not_true, Bool.false_eq_true, if_false, ne_eq,
               not_true_eq_false, if_true]
    rw [scanProcs_eq_find]
    cases hf : (chainRecs e.records).find? (fun r => r.uniqueProcessId == pid)
      <;> simp [hf]

/-- C7 witness: the theorem applied to `snapEnvW`: a 50-byte buffer is
    reported too small (the loop retries at the reported 100 bytes), and the
    successful query's scan finds the record with pid 7 in the traversed
    chain. -/
theorem get_proc_info_retry_scan_c7_witness :
    psutil_get_proc_info_loop snapEnvW 4 50 =
      psutil_get_proc_info_loop snapEnvW 3 (snapEnvW.query 50).2 ∧
    psutil_get_proc_info snapEnvW 7 2 50 =
      some (match (chainRecs snapEnvW.records).find?
              (fun r => r.uniqueProcessId == 7) with
            | some r => .ok r
            | none => .error .noSuchProcess) :=
  ⟨(get_proc_info_retry_scan_c7 snapEnvW).1 3 50 (Or.inl rfl) rfl,
   (get_proc_info_retry_scan_c7 snapEnvW).2.2 7 2 50 100 rfl rfl rfl⟩
